import Mathlib

/-!
# SentinelX core logic: a shallow embedding

Shallow embedding of the core logic of the SentinelX hazard dashboard:
the severity classifier and safety-action checklists (`Dashboard.tsx`,
`SafetyResponsePanel`), the alert sorter and its sort-selection state
machine (`AlertHistory.tsx`), and the fetch-with-fallback data sources
(`Dashboard.tsx` and the `HazardAlerts` component).

Modelling conventions:
* JavaScript strings are Lean `String`s; `toLowerCase`/`includes` are
  embedded character-by-character (`Char.toLower` agrees with the ASCII
  labels this codebase uses).
* Timestamps are `Int` epoch milliseconds: the code stores ISO strings and
  compares `new Date(s).getTime()`, so the stored value is embedded as the
  time value itself; `Date.now()` becomes an explicit `now : Int` argument.
* `localeCompare` is embedded as code-point lexicographic comparison
  returning -1/0/1, which is its behaviour on the ASCII labels used here.
* `[...xs].sort(cmp)` is embedded as a stable sort (`List.mergeSort`) by
  `le a b := cmp a b ≤ 0`, per the ECMAScript requirement that
  `Array.prototype.sort` be stable; the spread copy makes it non-mutating,
  which a pure embedding reflects by construction.
* An async fetch is embedded as a function of its outcome: the decoded
  payload on success, or a failure token for the single collapsed error
  branch (network error, timeout, decode error).
-/

namespace SentinelX

/-- Character-wise lowercasing, modelling JavaScript
`String.prototype.toLowerCase` on the ASCII strings this codebase uses. -/
def lowerStr (s : String) : List Char :=
  s.toList.map Char.toLower

/-- `containsSub pat s` models JavaScript `s.includes(pat)`: `true` iff
`pat` occurs as a contiguous substring of `s`. -/
def containsSub (pat : List Char) : List Char → Bool
  | [] => pat.isEmpty
  | c :: rest => pat.isPrefixOf (c :: rest) || containsSub pat rest

/-- `inclLower s pat` models `s.toLowerCase().includes(pat)` for an
already-lowercase pattern `pat`, the test used throughout the classifier. -/
def inclLower (s pat : String) : Bool :=
  containsSub pat.toList (lowerStr s)

/-- The three display categories of the severity classifier. -/
inductive Category where
  | High
  | Medium
  | Low
deriving DecidableEq

/-- The severity classifier as the spec words it (`severityCategory`):
case-insensitive substring match, text containing "high" or "critical" →
High; otherwise "medium" or "moderate" → Medium; otherwise Low. Stated from
the spec to be compared with `getRiskColor`, its realisation in
`Dashboard.tsx`. -/
def severityCategory (text : String) : Category :=
  if inclLower text "high" || inclLower text "critical" then .High
  else if inclLower text "medium" || inclLower text "moderate" then .Medium
  else .Low

/-- `getRiskColor` from `Dashboard.tsx`: the CSS class string for a
free-text risk level, chosen by case-insensitive substring match. -/
def getRiskColor (level : String) : String :=
  if inclLower level "high" || inclLower level "critical" then
    "border-red-500 bg-red-500/10 text-red-400"
  else if inclLower level "medium" || inclLower level "moderate" then
    "border-orange-500 bg-orange-500/10 text-orange-400"
  else
    "border-green-500 bg-green-500/10 text-green-400"

/-- `getRiskBadgeColor` from `Dashboard.tsx`: the badge CSS class string,
same branch structure as `getRiskColor`. -/
def getRiskBadgeColor (level : String) : String :=
  if inclLower level "high" || inclLower level "critical" then
    "bg-red-500/20 text-red-400 border-red-500/30"
  else if inclLower level "medium" || inclLower level "moderate" then
    "bg-orange-500/20 text-orange-400 border-orange-500/30"
  else
    "bg-green-500/20 text-green-400 border-green-500/30"

/-- `getSeverityColor` from the `SafetyResponsePanel` component: the panel
border CSS class for the severity prop, same branch structure again. -/
def getSeverityColor (severity : String) : String :=
  if inclLower severity "high" || inclLower severity "critical" then
    "border-red-500 bg-red-500/5"
  else if inclLower severity "medium" || inclLower severity "moderate" then
    "border-orange-500 bg-orange-500/5"
  else
    "border-yellow-500 bg-yellow-500/5"

/-- The color string `getRiskColor` assigns to each category. -/
def riskColorOf : Category → String
  | .High => "border-red-500 bg-red-500/10 text-red-400"
  | .Medium => "border-orange-500 bg-orange-500/10 text-orange-400"
  | .Low => "border-green-500 bg-green-500/10 text-green-400"

/-- The color string the safety panel's `getSeverityColor` assigns to each
category. -/
def panelColorOf : Category → String
  | .High => "border-red-500 bg-red-500/5"
  | .Medium => "border-orange-500 bg-orange-500/5"
  | .Low => "border-yellow-500 bg-yellow-500/5"

/-- The fire checklist from `getSafetyActions`. -/
def fireActions : List String :=
  [ "Isolate affected module immediately",
    "Activate automatic fire suppression systems",
    "Alert all crew members via intercom",
    "Evacuate personnel from adjacent modules",
    "Seal ventilation to prevent spread",
    "Monitor oxygen levels in nearby areas" ]

/-- The smoke checklist from `getSafetyActions`. -/
def smokeActions : List String :=
  [ "Activate ventilation systems in affected area",
    "Alert crew members in vicinity",
    "Identify source of smoke emission",
    "Prepare fire suppression equipment",
    "Monitor air quality sensors",
    "Restrict access to affected zone" ]

/-- The electrical/spark checklist from `getSafetyActions`. -/
def electricalActions : List String :=
  [ "Immediately cut power to affected circuit",
    "Evacuate personnel from danger zone",
    "Verify backup power systems are operational",
    "Deploy insulated equipment for inspection",
    "Monitor for secondary hazards",
    "Notify engineering team for assessment" ]

/-- The gas/leak checklist from `getSafetyActions`. -/
def gasActions : List String :=
  [ "Seal affected compartment immediately",
    "Activate emergency ventilation protocols",
    "Evacuate all personnel from area",
    "Deploy atmospheric sensors",
    "Use breathing apparatus for inspections",
    "Locate and isolate leak source" ]

/-- The overheat/temperature checklist from `getSafetyActions`. -/
def overheatActions : List String :=
  [ "Reduce power consumption in affected area",
    "Activate auxiliary cooling systems",
    "Monitor temperature trends continuously",
    "Check thermal protection systems",
    "Prepare for equipment shutdown if needed",
    "Document temperature readings" ]

/-- The generic fallback checklist from `getSafetyActions`. -/
def genericActions : List String :=
  [ "Assess the situation thoroughly",
    "Alert relevant crew members",
    "Follow standard safety protocols",
    "Document all observations",
    "Monitor system status closely" ]

/-- `getSafetyActions` from the `SafetyResponsePanel` component: keyword
categories tried in source order — fire, smoke, electrical/spark, gas/leak,
overheat/temperature — first match wins, generic checklist otherwise. -/
def getSafetyActions (type : String) : List String :=
  if inclLower type "fire" then fireActions
  else if inclLower type "smoke" then smokeActions
  else if inclLower type "electrical" || inclLower type "spark" then electricalActions
  else if inclLower type "gas" || inclLower type "leak" then gasActions
  else if inclLower type "overheat" || inclLower type "temperature" then overheatActions
  else genericActions

/-- The closed severity set of `AlertRecord`s: "Low" | "Medium" | "High". -/
inductive Severity where
  | Low
  | Medium
  | High
deriving DecidableEq

/-- Alert status from `AlertHistory.tsx`: "Resolved" | "Active". -/
inductive AlertStatus where
  | Resolved
  | Active
deriving DecidableEq

/-- The `HistoricalAlert` record of `AlertHistory.tsx`. `timestamp` is the
epoch-millisecond value the comparator extracts with
`new Date(s).getTime()`. -/
structure HistoricalAlert where
  id : String
  type : String
  severity : Severity
  location : String
  timestamp : Int
  status : AlertStatus
deriving DecidableEq

/-- The `severityOrder` table of `sortedAlerts`: High 3, Medium 2, Low 1. -/
def severityOrder : Severity → Int
  | .High => 3
  | .Medium => 2
  | .Low => 1

/-- Code-point lexicographic comparison returning -1, 0 or 1, the embedding
of `String.prototype.localeCompare` on this codebase's ASCII labels. -/
def lexCmp : List Char → List Char → Int
  | [], [] => 0
  | [], _ :: _ => -1
  | _ :: _, [] => 1
  | a :: as, b :: bs =>
    if a.toNat < b.toNat then -1
    else if b.toNat < a.toNat then 1
    else lexCmp as bs

/-- `a.localeCompare(b)` as used by the type comparator. -/
def localeCmp (a b : String) : Int :=
  lexCmp a.toList b.toList

/-- Sort fields of `AlertHistory.tsx`. -/
inductive SortField where
  | timestamp
  | severity
  | type
deriving DecidableEq

/-- Sort orders of `AlertHistory.tsx`. -/
inductive SortOrder where
  | asc
  | desc
deriving DecidableEq

/-- The per-field `compareValue` computed inside `sortedAlerts`. -/
def compareValue (f : SortField) (a b : HistoricalAlert) : Int :=
  match f with
  | .timestamp => a.timestamp - b.timestamp
  | .severity => severityOrder a.severity - severityOrder b.severity
  | .type => localeCmp a.type b.type

/-- The full comparator of `sortedAlerts`: `asc` returns `compareValue`,
`desc` returns its negation. -/
def alertCmp (f : SortField) (o : SortOrder) (a b : HistoricalAlert) : Int :=
  match o with
  | .asc => compareValue f a b
  | .desc => -(compareValue f a b)

/-- The Bool ordering handed to the stable sort: `cmp a b ≤ 0`. -/
def alertLe (f : SortField) (o : SortOrder) (a b : HistoricalAlert) : Bool :=
  decide (alertCmp f o a b ≤ 0)

/-- `sortedAlerts` from `AlertHistory.tsx`: `[...alerts].sort(cmp)`, a
stable sort of a copy of the list by the comparator. -/
def sortedAlerts (alerts : List HistoricalAlert) (f : SortField) (o : SortOrder) :
    List HistoricalAlert :=
  alerts.mergeSort (alertLe f o)

/-- The sort-selection state of `AlertHistory.tsx`: the `sortField` and
`sortOrder` `useState` pair. -/
structure SortState where
  sortField : SortField
  sortOrder : SortOrder
deriving DecidableEq

/-- The initial sort-selection state: field "timestamp", order "desc". -/
def initialSortState : SortState :=
  { sortField := .timestamp, sortOrder := .desc }

/-- `handleSort` from `AlertHistory.tsx`: clicking a column header toggles
the order on the active field, or switches field and resets to desc. -/
def handleSort (s : SortState) (f : SortField) : SortState :=
  if s.sortField = f then
    { s with sortOrder := if s.sortOrder = .asc then .desc else .asc }
  else
    { sortField := f, sortOrder := .desc }

/-- Concrete record for the stability witness. -/
def stabA : HistoricalAlert :=
  { id := "1", type := "Smoke Detected", severity := .High,
    location := "Module A-12", timestamp := 200, status := .Resolved }

/-- Concrete record for the stability witness: same severity as `stabA`,
distinct id. -/
def stabB : HistoricalAlert :=
  { id := "2", type := "Fire Detected", severity := .High,
    location := "Research Lab 2", timestamp := 100, status := .Resolved }

/-- Concrete record for the stability witness, of a different severity. -/
def stabC : HistoricalAlert :=
  { id := "3", type := "Electrical Fault", severity := .Medium,
    location := "Solar Array 3", timestamp := 300, status := .Resolved }

/-- The `Alert` record of the `HazardAlerts` component (the `/alerts`
payload shape). `timestamp` is epoch milliseconds, as above. -/
structure Alert where
  id : String
  type : String
  severity : Severity
  location : String
  timestamp : Int
  description : Option String
deriving DecidableEq

/-- The hardcoded fallback list the `HazardAlerts` component substitutes in
its catch branch; `now` is the `Date.now()` reading of the invocation. -/
def fallbackAlerts (now : Int) : List Alert :=
  [ { id := "1", type := "Smoke Detected", severity := .High,
      location := "Module A-12", timestamp := now - 120000,
      description := some "Dense smoke detected in corridor section" },
    { id := "2", type := "Electrical Fault", severity := .Medium,
      location := "Solar Array 3", timestamp := now - 300000,
      description := some "Abnormal electrical discharge observed" },
    { id := "3", type := "Temperature Spike", severity := .Low,
      location := "Life Support Bay", timestamp := now - 600000,
      description := some "Minor temperature fluctuation recorded" },
    { id := "4", type := "Fire Detected", severity := .High,
      location := "Research Lab 2", timestamp := now - 900000,
      description := some "Active fire detected by visual monitoring" } ]

/-- One completed invocation of `fetchAlerts` from the `HazardAlerts`
component, as a function of its outcome: the decoded payload on success
(`some payload`), the fallback on any failure (`none` — network error,
timeout and decode error are one collapsed catch branch). The component has
no error state, so the result type carries no error channel. -/
def fetchAlerts (outcome : Option (List Alert)) (now : Int) : List Alert :=
  match outcome with
  | some payload => payload
  | none => fallbackAlerts now

/-- The `HazardDetection` record of `Dashboard.tsx` (the `/detect` payload
shape); `confidence` is the optional percentage. -/
structure HazardDetection where
  type : String
  risk_level : String
  location : String
  timestamp : Int
  confidence : Option Int
deriving DecidableEq

/-- The hardcoded fallback snapshot `Dashboard.tsx` substitutes in its
catch branch; its timestamp is `new Date().toISOString()`, i.e. `now`. -/
def fallbackHazard (now : Int) : HazardDetection :=
  { type := "Smoke Detected", risk_level := "High", location := "Module A-12",
    timestamp := now, confidence := some 92 }

/-- The failure kinds `fetchData` can see: axios `ERR_NETWORK`, or any
other failure (timeout, decode error, non-network axios error). -/
inductive FetchErr where
  | network
  | other
deriving DecidableEq

/-- The `Dashboard` component state touched by `fetchData`: the `hazard`,
`loading` and `error` `useState` cells. -/
structure DashState where
  hazard : Option HazardDetection
  loading : Bool
  error : Option String
deriving DecidableEq

/-- The Dashboard's initial state: no hazard, loading, `error = null`. -/
def initialDashState : DashState :=
  { hazard := none, loading := true, error := none }

/-- One completed invocation of `fetchData` from `Dashboard.tsx`: success
stores the payload and clears `error`; any failure stores the fallback
snapshot, and additionally clears `error` only when the failure is
`ERR_NETWORK`; `loading` is cleared in the `finally` block. -/
def fetchData (s : DashState) (outcome : Except FetchErr HazardDetection) (now : Int) :
    DashState :=
  match outcome with
  | .ok payload => { s with hazard := some payload, error := none, loading := false }
  | .error .network =>
      { s with hazard := some (fallbackHazard now), error := none, loading := false }
  | .error .other =>
      { s with hazard := some (fallbackHazard now), loading := false }

/-- A run of the Dashboard: the state after a sequence of completed
`fetchData` invocations (each with its outcome and clock reading), starting
from the initial state. -/
def runDashboard (events : List (Except FetchErr HazardDetection × Int)) : DashState :=
  events.foldl (fun s ev => fetchData s ev.1 ev.2) initialDashState

/-- Builds a `HazardDetection` from its five fields, for stating facts
about snapshots that differ only in `confidence`. -/
def mkHazard (t rl loc : String) (ts : Int) (c : Option Int) : HazardDetection :=
  { type := t, risk_level := rl, location := loc, timestamp := ts, confidence := c }

/-- The confidence rendering guard of `Dashboard.tsx`:
`hazard.confidence && (...)` — the bar and percentage render only when the
optional number is truthy under JavaScript truthiness (absent and 0 are
both falsy). -/
def showsConfidence (h : HazardDetection) : Bool :=
  match h.confidence with
  | none => false
  | some c => decide (c ≠ 0)

end SentinelX

namespace SentinelX

/-- C1: the severity classifier is a total function on strings — lowercase
form containing "high" or "critical" → High, else "medium" or "moderate" →
Medium, else Low — and the code's `getRiskColor` (and the safety panel's
`getSeverityColor`) factor through it via an assignment of one color string
per category; in particular "HIGH risk", "High-Critical" and "critical"
classify High, "moderate concern" Medium, "nominal" Low. -/
theorem severityCategory_spec :
    (∀ level : String, getRiskColor level = riskColorOf (severityCategory level)) ∧
    (∀ level : String, getSeverityColor level = panelColorOf (severityCategory level)) ∧
    (∀ level : String, severityCategory level = .High ∨ severityCategory level = .Medium ∨
      severityCategory level = .Low) ∧
    severityCategory "HIGH risk" = .High ∧
    severityCategory "High-Critical" = .High ∧
    severityCategory "critical" = .High ∧
    severityCategory "moderate concern" = .Medium ∧
    severityCategory "nominal" = .Low := by
  refine ⟨?_, ?_, ?_, by decide, by decide, by decide, by decide, by decide⟩
  · intro level
    by_cases h1 : (inclLower level "high" || inclLower level "critical") = true
    · simp [getRiskColor, severityCategory, riskColorOf, h1]
    · by_cases h2 : (inclLower level "medium" || inclLower level "moderate") = true
      · simp [getRiskColor, severityCategory, riskColorOf, h1, h2]
      · simp [getRiskColor, severityCategory, riskColorOf, h1, h2]
  · intro level
    by_cases h1 : (inclLower level "high" || inclLower level "critical") = true
    · simp [getSeverityColor, severityCategory, panelColorOf, h1]
    · by_cases h2 : (inclLower level "medium" || inclLower level "moderate") = true
      · simp [getSeverityColor, severityCategory, panelColorOf, h1, h2]
      · simp [getSeverityColor, severityCategory, panelColorOf, h1, h2]
  · intro level
    cases h : severityCategory level
    · exact Or.inl rfl
    · exact Or.inr (Or.inl rfl)
    · exact Or.inr (Or.inr rfl)

/-- C2: `getSafetyActions` tries its keyword categories in the fixed source
order fire, smoke, electrical/spark, gas/leak, overheat/temperature with
first-match-wins on case-insensitive substring containment, returning that
category's fixed checklist (5 or 6 steps); "Fire and Smoke Detected" gets
the fire checklist and an unmatched string the generic 5-step fallback. -/
theorem getSafetyActions_spec :
    (∀ t : String, inclLower t "fire" = true → getSafetyActions t = fireActions) ∧
    (∀ t : String, inclLower t "fire" = false → inclLower t "smoke" = true →
      getSafetyActions t = smokeActions) ∧
    (∀ t : String, inclLower t "fire" = false → inclLower t "smoke" = false →
      (inclLower t "electrical" || inclLower t "spark") = true →
      getSafetyActions t = electricalActions) ∧
    (∀ t : String, inclLower t "fire" = false → inclLower t "smoke" = false →
      (inclLower t "electrical" || inclLower t "spark") = false →
      (inclLower t "gas" || inclLower t "leak") = true →
      getSafetyActions t = gasActions) ∧
    (∀ t : String, inclLower t "fire" = false → inclLower t "smoke" = false →
      (inclLower t "electrical" || inclLower t "spark") = false →
      (inclLower t "gas" || inclLower t "leak") = false →
      (inclLower t "overheat" || inclLower t "temperature") = true →
      getSafetyActions t = overheatActions) ∧
    (∀ t : String, inclLower t "fire" = false → inclLower t "smoke" = false →
      (inclLower t "electrical" || inclLower t "spark") = false →
      (inclLower t "gas" || inclLower t "leak") = false →
      (inclLower t "overheat" || inclLower t "temperature") = false →
      getSafetyActions t = genericActions) ∧
    getSafetyActions "Fire and Smoke Detected" = fireActions ∧
    getSafetyActions "Routine Check" = genericActions ∧
    fireActions.length = 6 ∧ smokeActions.length = 6 ∧ electricalActions.length = 6 ∧
    gasActions.length = 6 ∧ overheatActions.length = 6 ∧ genericActions.length = 5 := by
  refine ⟨?_, ?_, ?_, ?_, ?_, ?_, by decide, by decide, by decide, by decide, by decide,
    by decide, by decide, by decide⟩ <;>
  · intro t
    intros
    simp [getSafetyActions, *]

/-- Witness for C2: the fire branch at the concrete input
"Fire and Smoke Detected", which also contains "smoke". -/
theorem getSafetyActions_spec_witness :
    inclLower "Fire and Smoke Detected" "fire" = true ∧
    inclLower "Fire and Smoke Detected" "smoke" = true ∧
    getSafetyActions "Fire and Smoke Detected" = fireActions :=
  ⟨by decide, by decide, getSafetyActions_spec.1 "Fire and Smoke Detected" (by decide)⟩

/-- Swapping the arguments of `lexCmp` negates the result. -/
theorem lexCmp_flip : ∀ as bs : List Char, lexCmp bs as = -(lexCmp as bs) := by
  intro as
  induction as with
  | nil =>
    intro bs
    cases bs <;> simp [lexCmp]
  | cons a as ih =>
    intro bs
    cases bs with
    | nil => simp [lexCmp]
    | cons b bs =>
      simp only [lexCmp]
      by_cases h1 : a.toNat < b.toNat
      · have h2 : ¬ b.toNat < a.toNat := by omega
        simp [h1, h2]
      · by_cases h2 : b.toNat < a.toNat
        · simp [h1, h2]
        · simp [h1, h2, ih bs]

/-- `lexCmp` is transitive on the nonpositive side. -/
theorem lexCmp_trans :
    ∀ as bs cs : List Char, lexCmp as bs ≤ 0 → lexCmp bs cs ≤ 0 → lexCmp as cs ≤ 0 := by
  intro as
  induction as with
  | nil =>
    intro bs cs _ _
    cases cs <;> simp [lexCmp]
  | cons a as ih =>
    intro bs cs h1 h2
    cases bs with
    | nil => simp [lexCmp] at h1
    | cons b bs =>
      cases cs with
      | nil => simp [lexCmp] at h2
      | cons c cs =>
        simp only [lexCmp] at h1 h2 ⊢
        rcases Nat.lt_trichotomy a.toNat b.toNat with hab | hab | hab
        · rcases Nat.lt_trichotomy b.toNat c.toNat with hbc | hbc | hbc
          · have hac : a.toNat < c.toNat := by omega
            simp [hac]
          · have hac : a.toNat < c.toNat := by omega
            simp [hac]
          · have h3 : ¬ b.toNat < c.toNat := by omega
            simp [h3, hbc] at h2
        · rcases Nat.lt_trichotomy b.toNat c.toNat with hbc | hbc | hbc
          · have hac : a.toNat < c.toNat := by omega
            simp [hac]
          · have h3 : ¬ a.toNat < b.toNat := by omega
            have h4 : ¬ b.toNat < a.toNat := by omega
            have h5 : ¬ b.toNat < c.toNat := by omega
            have h6 : ¬ c.toNat < b.toNat := by omega
            have h7 : ¬ a.toNat < c.toNat := by omega
            have h8 : ¬ c.toNat < a.toNat := by omega
            simp [h3, h4] at h1
            simp [h5, h6] at h2
            simp [h7, h8]
            exact ih bs cs h1 h2
          · have h3 : ¬ b.toNat < c.toNat := by omega
            simp [h3, hbc] at h2
        · have h3 : ¬ a.toNat < b.toNat := by omega
          simp [h3, hab] at h1

/-- Swapping the arguments of the per-field comparator negates it. -/
theorem compareValue_flip (f : SortField) (a b : HistoricalAlert) :
    compareValue f b a = -(compareValue f a b) := by
  cases f with
  | timestamp =>
    simp only [compareValue]
    omega
  | severity =>
    simp only [compareValue]
    omega
  | type =>
    simp only [compareValue, localeCmp]
    exact lexCmp_flip _ _

/-- The per-field comparator is transitive on the nonpositive side. -/
theorem compareValue_trans (f : SortField) (a b c : HistoricalAlert) :
    compareValue f a b ≤ 0 → compareValue f b c ≤ 0 → compareValue f a c ≤ 0 := by
  intro h1 h2
  cases f with
  | timestamp =>
    simp only [compareValue] at h1 h2 ⊢
    omega
  | severity =>
    simp only [compareValue] at h1 h2 ⊢
    omega
  | type =>
    simp only [compareValue, localeCmp] at h1 h2 ⊢
    exact lexCmp_trans _ _ _ h1 h2

/-- Swapping the arguments of the full comparator negates it. -/
theorem alertCmp_flip (f : SortField) (o : SortOrder) (a b : HistoricalAlert) :
    alertCmp f o b a = -(alertCmp f o a b) := by
  cases o with
  | asc =>
    simp only [alertCmp]
    exact compareValue_flip f a b
  | desc =>
    simp only [alertCmp]
    rw [compareValue_flip f a b]

/-- The Bool ordering used by the sort is transitive. -/
theorem alertLe_trans (f : SortField) (o : SortOrder) :
    ∀ a b c, alertLe f o a b = true → alertLe f o b c = true → alertLe f o a c = true := by
  intro a b c h1 h2
  simp only [alertLe, decide_eq_true_eq] at h1 h2 ⊢
  cases o with
  | asc =>
    simp only [alertCmp] at h1 h2 ⊢
    exact compareValue_trans f a b c h1 h2
  | desc =>
    simp only [alertCmp] at h1 h2 ⊢
    have h1' : compareValue f b a ≤ 0 := by
      rw [compareValue_flip]
      omega
    have h2' : compareValue f c b ≤ 0 := by
      rw [compareValue_flip]
      omega
    have h3 := compareValue_trans f c b a h2' h1'
    rw [compareValue_flip] at h3
    omega

/-- The Bool ordering used by the sort is total. -/
theorem alertLe_total (f : SortField) (o : SortOrder) :
    ∀ a b, (alertLe f o a b || alertLe f o b a) = true := by
  intro a b
  simp only [alertLe, Bool.or_eq_true, decide_eq_true_eq]
  have h := alertCmp_flip f o a b
  omega

/-- C3: for every list of alert records, the sort returns a permutation of
the input ordered by the per-field comparator — timestamp: numeric
difference of time values; severity: numeric difference after High 3,
Medium 2, Low 1; type: lexical string comparison — and desc negates the
ascending comparator. -/
theorem sortedAlerts_spec :
    ∀ (alerts : List HistoricalAlert) (f : SortField) (o : SortOrder),
      (sortedAlerts alerts f o).Perm alerts ∧
      (sortedAlerts alerts f o).Pairwise (fun a b => alertCmp f o a b ≤ 0) ∧
      (∀ a b, compareValue .timestamp a b = a.timestamp - b.timestamp) ∧
      (∀ a b, compareValue .severity a b =
        severityOrder a.severity - severityOrder b.severity) ∧
      (∀ a b, compareValue .type a b = localeCmp a.type b.type) ∧
      (∀ a b, alertCmp f .asc a b = compareValue f a b) ∧
      (∀ a b, alertCmp f .desc a b = -(compareValue f a b)) := by
  intro alerts f o
  refine ⟨List.mergeSort_perm alerts (alertLe f o), ?_, fun a b => rfl, fun a b => rfl,
    fun a b => rfl, fun a b => rfl, fun a b => rfl⟩
  have h := List.sorted_mergeSort (alertLe_trans f o) (alertLe_total f o) alerts
  exact h.imp fun hab => by simpa [alertLe] using hab

/-- C4: the alert sort is stable — two records comparing equal under the
selected comparator keep their input relative order — and sorting an
already-sorted sequence by the same field and order is the identity. -/
theorem sortedAlerts_stable :
    (∀ (alerts : List HistoricalAlert) (f : SortField) (o : SortOrder)
        (a b : HistoricalAlert),
        alertCmp f o a b = 0 → [a, b].Sublist alerts →
        [a, b].Sublist (sortedAlerts alerts f o)) ∧
    (∀ (alerts : List HistoricalAlert) (f : SortField) (o : SortOrder),
        sortedAlerts (sortedAlerts alerts f o) f o = sortedAlerts alerts f o) := by
  constructor
  · intro alerts f o a b hcmp hsub
    refine List.sublist_mergeSort (alertLe_trans f o) (alertLe_total f o) ?_ hsub
    simp [alertLe, hcmp]
  · intro alerts f o
    exact List.mergeSort_of_sorted
      (List.sorted_mergeSort (alertLe_trans f o) (alertLe_total f o) alerts)

/-- Witness for C4: two records of equal severity and distinct ids keep
their relative order when a concrete 3-element list is sorted by severity
descending. -/
theorem sortedAlerts_stable_witness :
    alertCmp .severity .desc stabA stabB = 0 ∧
    [stabA, stabB].Sublist [stabA, stabC, stabB] ∧
    [stabA, stabB].Sublist (sortedAlerts [stabA, stabC, stabB] .severity .desc) :=
  ⟨by decide, by decide,
    sortedAlerts_stable.1 [stabA, stabC, stabB] .severity .desc stabA stabB
      (by decide) (by decide)⟩

/-- C5: the sort-selection toggle contract — sorting on the active field
keeps the field and flips the order; sorting on a different field switches
to it and resets the order to desc. -/
theorem handleSort_spec :
    ∀ (s : SortState) (f : SortField),
      (s.sortField = f →
        (handleSort s f).sortField = s.sortField ∧
        (handleSort s f).sortOrder ≠ s.sortOrder) ∧
      (¬ s.sortField = f →
        (handleSort s f).sortField = f ∧ (handleSort s f).sortOrder = .desc) := by
  intro s f
  obtain ⟨sf, so⟩ := s
  cases sf <;> cases so <;> cases f <;> decide

/-- Witness for C5: both branches at the default state — re-sorting on
timestamp flips the order, sorting on type resets to desc. -/
theorem handleSort_spec_witness :
    (handleSort initialSortState .timestamp).sortField = initialSortState.sortField ∧
    (handleSort initialSortState .timestamp).sortOrder ≠ initialSortState.sortOrder ∧
    (handleSort initialSortState .type).sortField = SortField.type ∧
    (handleSort initialSortState .type).sortOrder = .desc := by
  have h1 := (handleSort_spec initialSortState .timestamp).1 rfl
  have h2 := (handleSort_spec initialSortState .type).2 (by decide)
  exact ⟨h1.1, h1.2, h2.1, h2.2⟩

/-- C6 counterexample: starting from the default state (timestamp, desc),
after the second sort-by-timestamp call the order is not asc — the first
call already flipped to asc and the second flipped back. -/
theorem handleSort_twice_counterexample :
    ¬ (handleSort (handleSort initialSortState .timestamp) .timestamp).sortOrder =
      SortOrder.asc := by decide

/-- C6 amended: from the default state (field timestamp, order desc), the
first sort-by-timestamp call yields (timestamp, asc) and the second returns
to (timestamp, desc), the field never changing. -/
theorem handleSort_twice_amended :
    handleSort initialSortState .timestamp =
      { sortField := .timestamp, sortOrder := .asc } ∧
    handleSort (handleSort initialSortState .timestamp) .timestamp =
      { sortField := .timestamp, sortOrder := .desc } := by decide

/-- C7 counterexample: the fallback alert records are not identical across
repeated invocations — their timestamps are offsets from the invocation's
clock reading, so two invocations at different times disagree. -/
theorem fetchAlerts_not_invocation_invariant :
    ¬ fetchAlerts none 0 = fetchAlerts none 1 := by decide

/-- C7 amended: every failed invocation yields the 4-element fallback with
ids "1"–"4" in order and fixed types, and no error channel exists; the
records are identical across invocations except for their timestamps,
which sit at fixed offsets before the invocation's clock reading. -/
theorem fetchAlerts_fallback :
    ∀ now : Int,
      fetchAlerts none now = fallbackAlerts now ∧
      (fetchAlerts none now).length = 4 ∧
      (fetchAlerts none now).map Alert.id = ["1", "2", "3", "4"] ∧
      (fetchAlerts none now).map Alert.type =
        ["Smoke Detected", "Electrical Fault", "Temperature Spike", "Fire Detected"] ∧
      (fetchAlerts none now).map Alert.severity =
        [.High, .Medium, .Low, .High] ∧
      (fetchAlerts none now).map Alert.timestamp =
        [now - 120000, now - 300000, now - 600000, now - 900000] := by
  intro now
  exact ⟨rfl, rfl, rfl, rfl, rfl, rfl⟩

/-- C8: when `/detect` fails, the Dashboard stores the fallback snapshot,
whose every field the UI reads is populated: risk_level "High", location
"Module A-12", confidence 92, type "Smoke Detected", and a timestamp. -/
theorem dashboard_fallback_fields :
    ∀ (s : DashState) (e : FetchErr) (now : Int),
      (fetchData s (.error e) now).hazard = some (fallbackHazard now) ∧
      (fallbackHazard now).risk_level = "High" ∧
      (fallbackHazard now).location = "Module A-12" ∧
      (fallbackHazard now).confidence = some 92 ∧
      (fallbackHazard now).type = "Smoke Detected" ∧
      (fallbackHazard now).timestamp = now := by
  intro s e now
  cases e <;> exact ⟨rfl, rfl, rfl, rfl, rfl, rfl⟩

/-- A completed `fetchData` invocation never turns a null error state into
a non-null one: success and network errors clear it, and the other-failure
branch leaves it untouched. -/
theorem fetchData_preserves_error_none (s : DashState)
    (outcome : Except FetchErr HazardDetection) (now : Int) (h : s.error = none) :
    (fetchData s outcome now).error = none := by
  cases outcome with
  | ok payload => rfl
  | error e =>
    cases e with
    | network => rfl
    | other => simpa [fetchData] using h

/-- C9: the Dashboard's error state is invariantly null — it starts null
and every completed `fetchData` invocation (success, network error or any
other failure) leaves it null, so no error is ever surfaced. -/
theorem dashboard_error_invariant :
    ∀ events : List (Except FetchErr HazardDetection × Int),
      (runDashboard events).error = none := by
  have aux : ∀ (events : List (Except FetchErr HazardDetection × Int)) (s : DashState),
      s.error = none →
      (events.foldl (fun s ev => fetchData s ev.1 ev.2) s).error = none := by
    intro events
    induction events with
    | nil =>
      intro s h
      simpa using h
    | cons ev rest ih =>
      intro s h
      exact ih _ (fetchData_preserves_error_none s ev.1 ev.2 h)
  intro events
  exact aux events initialDashState rfl

/-- C10: a snapshot with confidence 0 renders its confidence section
exactly like a snapshot with confidence absent — the truthiness guard hides
it in both cases — while a nonzero confidence such as the fallback's 92
shows it. -/
theorem confidence_zero_hidden :
    ∀ (t rl loc : String) (ts : Int),
      showsConfidence (mkHazard t rl loc ts (some 0)) = false ∧
      showsConfidence (mkHazard t rl loc ts none) = false ∧
      showsConfidence (mkHazard t rl loc ts (some 0)) =
        showsConfidence (mkHazard t rl loc ts none) ∧
      showsConfidence (mkHazard t rl loc ts (some 92)) = true := by
  intro t rl loc ts
  exact ⟨rfl, rfl, rfl, rfl⟩

end SentinelX
